import Mathlib

/-!
Verification of the webgpu-galaxy particle core: the deterministic hash PRNG,
the spiral placement generator, the per-frame update recurrence (differential
rotation, mouse repulsion, spring restoration), and the population controller
(uniform updates, lazy initialization, regeneration).  The GPU float math of
`src/galaxy.js`, `src/helpers.js` and the orchestrator module is embedded over
the real numbers; the WGSL `fract` is `Int.fract`, `pow` is `Real.rpow`, and
`normalize` of a zero-length vector — an indeterminate value (0/0) in WGSL —
is modelled by an `Option` result, `none` standing for the undefined value.
-/

noncomputable section

namespace Galaxy

/-- A three-component float vector, the TSL `vec3`. -/
@[ext]
structure Vec3 where
  x : ℝ
  y : ℝ
  z : ℝ

namespace Vec3

instance : Add Vec3 := ⟨fun v w => ⟨v.x + w.x, v.y + w.y, v.z + w.z⟩⟩

instance : Sub Vec3 := ⟨fun v w => ⟨v.x - w.x, v.y - w.y, v.z - w.z⟩⟩

instance : Neg Vec3 := ⟨fun v => ⟨-v.x, -v.y, -v.z⟩⟩

instance : Zero Vec3 := ⟨⟨0, 0, 0⟩⟩

instance : SMul ℝ Vec3 := ⟨fun c v => ⟨c * v.x, c * v.y, c * v.z⟩⟩

@[simp] theorem mk_x (a b c : ℝ) : (Vec3.mk a b c).x = a := rfl

@[simp] theorem mk_y (a b c : ℝ) : (Vec3.mk a b c).y = b := rfl

@[simp] theorem mk_z (a b c : ℝ) : (Vec3.mk a b c).z = c := rfl

@[simp] theorem add_x (v w : Vec3) : (v + w).x = v.x + w.x := rfl

@[simp] theorem add_y (v w : Vec3) : (v + w).y = v.y + w.y := rfl

@[simp] theorem add_z (v w : Vec3) : (v + w).z = v.z + w.z := rfl

@[simp] theorem sub_x (v w : Vec3) : (v - w).x = v.x - w.x := rfl

@[simp] theorem sub_y (v w : Vec3) : (v - w).y = v.y - w.y := rfl

@[simp] theorem sub_z (v w : Vec3) : (v - w).z = v.z - w.z := rfl

@[simp] theorem neg_x (v : Vec3) : (-v).x = -v.x := rfl

@[simp] theorem neg_y (v : Vec3) : (-v).y = -v.y := rfl

@[simp] theorem neg_z (v : Vec3) : (-v).z = -v.z := rfl

@[simp] theorem zero_x : (0 : Vec3).x = 0 := rfl

@[simp] theorem zero_y : (0 : Vec3).y = 0 := rfl

@[simp] theorem zero_z : (0 : Vec3).z = 0 := rfl

@[simp] theorem smul_x (c : ℝ) (v : Vec3) : (c • v).x = c * v.x := rfl

@[simp] theorem smul_y (c : ℝ) (v : Vec3) : (c • v).y = c * v.y := rfl

@[simp] theorem smul_z (c : ℝ) (v : Vec3) : (c • v).z = c * v.z := rfl

/-- The TSL `length` builtin: Euclidean norm of a `vec3`. -/
def length (v : Vec3) : ℝ := Real.sqrt (v.x ^ 2 + v.y ^ 2 + v.z ^ 2)

theorem length_nonneg (v : Vec3) : 0 ≤ v.length := Real.sqrt_nonneg _

theorem length_eq_zero {v : Vec3} : v.length = 0 ↔ v = 0 := by
  unfold length
  rw [Real.sqrt_eq_zero']
  constructor
  · intro h
    have hx : v.x = 0 := by nlinarith [sq_nonneg v.x, sq_nonneg v.y, sq_nonneg v.z]
    have hy : v.y = 0 := by nlinarith [sq_nonneg v.x, sq_nonneg v.y, sq_nonneg v.z]
    have hz : v.z = 0 := by nlinarith [sq_nonneg v.x, sq_nonneg v.y, sq_nonneg v.z]
    ext <;> simp [hx, hy, hz]
  · intro h
    subst h
    norm_num

theorem length_smul (c : ℝ) (v : Vec3) : (c • v).length = |c| * v.length := by
  unfold length
  have h1 : (c • v).x ^ 2 + (c • v).y ^ 2 + (c • v).z ^ 2
      = c ^ 2 * (v.x ^ 2 + v.y ^ 2 + v.z ^ 2) := by
    simp only [smul_x, smul_y, smul_z]
    ring
  rw [h1, Real.sqrt_mul (sq_nonneg c), Real.sqrt_sq_eq_abs]

theorem sub_eq_zero_iff {v w : Vec3} : v - w = 0 ↔ v = w := by
  constructor
  · intro h
    have hx := congrArg Vec3.x h
    have hy := congrArg Vec3.y h
    have hz := congrArg Vec3.z h
    simp only [sub_x, sub_y, sub_z, zero_x, zero_y, zero_z, sub_eq_zero] at hx hy hz
    ext <;> assumption
  · intro h
    subst h
    ext <;> simp

theorem smul_zero_vec (c : ℝ) : c • (0 : Vec3) = 0 := by
  ext <;> simp

theorem zero_smul_vec (v : Vec3) : (0 : ℝ) • v = 0 := by
  ext <;> simp

theorem neg_zero_vec : -(0 : Vec3) = 0 := by
  ext <;> simp

theorem add_zero_vec (v : Vec3) : v + 0 = v := by
  ext <;> simp

theorem smul_eq_zero_iff {c : ℝ} {v : Vec3} : c • v = 0 ↔ c = 0 ∨ v = 0 := by
  constructor
  · intro h
    by_cases hc : c = 0
    · exact Or.inl hc
    · refine Or.inr ?_
      have hx := congrArg Vec3.x h
      have hy := congrArg Vec3.y h
      have hz := congrArg Vec3.z h
      simp only [smul_x, smul_y, smul_z, zero_x, zero_y, zero_z, mul_eq_zero] at hx hy hz
      ext <;> tauto
  · rintro (hc | hv)
    · subst hc; exact zero_smul_vec v
    · subst hv; exact smul_zero_vec c

end Vec3

/-- Planar distance from the galactic center, computed in the source as
`length(vec3(v.x, 0, v.z))`. -/
def planarLength (v : Vec3) : ℝ := Vec3.length ⟨v.x, 0, v.z⟩

theorem planarLength_eq (v : Vec3) : planarLength v = Real.sqrt (v.x ^ 2 + v.z ^ 2) := by
  unfold planarLength Vec3.length
  norm_num

/-- The hash PRNG of `galaxy.js` / `helpers.js`: normalize the seed with
`fract(seed * 0.1031)`, then `h = p + 19.19` and `fract(h * (h + 47.43) * p)`. -/
def hash (seed : ℝ) : ℝ :=
  let p := Int.fract (seed * 0.1031)
  let h := p + 19.19
  Int.fract (h * (h + 47.43) * p)

theorem hash_nonneg (s : ℝ) : 0 ≤ hash s := Int.fract_nonneg _

theorem hash_lt_one (s : ℝ) : hash s < 1 := Int.fract_lt_one _

/-- C1: `hash` computes `fract((fract(s*0.1031)+19.19) * (fract(s*0.1031)+19.19+47.43)
* fract(s*0.1031))`, is a pure function (two calls on the same seed agree), and its
result always lies in the half-open interval `[0, 1)`. -/
theorem hash_spec (s : ℝ) :
    hash s = Int.fract ((Int.fract (s * 0.1031) + 19.19)
        * (Int.fract (s * 0.1031) + 19.19 + 47.43) * Int.fract (s * 0.1031))
      ∧ hash s = hash s ∧ 0 ≤ hash s ∧ hash s < 1 :=
  ⟨rfl, rfl, hash_nonneg s, hash_lt_one s⟩

/-- The galaxy-structure generation uniforms read by both init shaders. -/
structure GenParams where
  galaxyRadius : ℝ
  galaxyThickness : ℝ
  spiralTightness : ℝ
  armCount : ℝ
  armWidth : ℝ
  randomness : ℝ

/-- Star placement from `computeInit` in `galaxy.js`: seed is the particle
index, radius draws `hash(seed+1)^0.5 * galaxyRadius`, an arm is picked from
`hash(seed+2)`, the spiral winding is `normalizedRadius * tightness * 2π`,
jitter comes from `hash(seed+3)` and `hash(seed+4)`, and the vertical extent
tapers with `(1 - normalizedRadius) + 0.2`. -/
def starInitPos (P : GenParams) (i : ℕ) : Vec3 :=
  let seed : ℝ := i
  let radius := hash (seed + 1) ^ (0.5 : ℝ) * P.galaxyRadius
  let armIndex := (↑⌊hash (seed + 2) * P.armCount⌋ : ℝ)
  let armAngle := armIndex * 6.28318 / P.armCount
  let spiralAngle := radius / P.galaxyRadius * P.spiralTightness * 6.28318
  let angleOffset := (hash (seed + 3) - 0.5) * P.randomness
  let radiusOffset := (hash (seed + 4) - 0.5) * P.armWidth
  let angle := armAngle + spiralAngle + angleOffset
  let offsetRadius := radius + radiusOffset
  let xc := Real.cos angle * offsetRadius
  let zc := Real.sin angle * offsetRadius
  let normalizedRadius := radius / P.galaxyRadius
  let thicknessFactor := 1 - normalizedRadius + 0.2
  let yc := (hash (seed + 5) - 0.5) * P.galaxyThickness * thicknessFactor
  ⟨xc, yc, zc⟩

/-- Cloud placement from `cloudInit`: identical to star placement except the
seed is offset by 10000, the radius exponent is 0.7, and the thickness
constant is 0.15. -/
def cloudInitPos (P : GenParams) (j : ℕ) : Vec3 :=
  let seed : ℝ := (j : ℝ) + 10000
  let radius := hash (seed + 1) ^ (0.7 : ℝ) * P.galaxyRadius
  let armIndex := (↑⌊hash (seed + 2) * P.armCount⌋ : ℝ)
  let armAngle := armIndex * 6.28318 / P.armCount
  let spiralAngle := radius / P.galaxyRadius * P.spiralTightness * 6.28318
  let angleOffset := (hash (seed + 3) - 0.5) * P.randomness
  let radiusOffset := (hash (seed + 4) - 0.5) * P.armWidth
  let angle := armAngle + spiralAngle + angleOffset
  let offsetRadius := radius + radiusOffset
  let xc := Real.cos angle * offsetRadius
  let zc := Real.sin angle * offsetRadius
  let normalizedRadius := radius / P.galaxyRadius
  let thicknessFactor := 1 - normalizedRadius + 0.15
  let yc := (hash (seed + 5) - 0.5) * P.galaxyThickness * thicknessFactor
  ⟨xc, yc, zc⟩

/-- `rotateXZ` from `helpers.js`: rotate the `(x, z)` components about the
vertical axis by `angle`, keeping `y`. -/
def rotateXZ (p : Vec3) (angle : ℝ) : Vec3 :=
  let c := Real.cos angle
  let s := Real.sin angle
  ⟨p.x * c - p.z * s, p.y, p.x * s + p.z * c⟩

/-- `applyDifferentialRotation` from `helpers.js` (inlined in `galaxy.js`):
angular speed `rotationSpeed / (distFromCenter * 0.1 + 1) * deltaTime`,
negated, applied with `rotateXZ`. -/
def applyDifferentialRotation (p : Vec3) (rotationSpeed dt : ℝ) : Vec3 :=
  let distFromCenter := Vec3.length ⟨p.x, 0, p.z⟩
  let rotationFactor := 1 / (distFromCenter * 0.1 + 1)
  let angularSpeed := -(rotationSpeed * rotationFactor * dt)
  rotateXZ p angularSpeed

/-- External mouse force state: origin, active flag (0 or 1 in the source),
strength and radius of influence. -/
structure ForceState where
  mouse : Vec3
  active : ℝ
  force : ℝ
  radius : ℝ

/-- `applyMouseForce` from `helpers.js` (inlined in `galaxy.js`): influence is
`active * max(1 - dist/radius, 0)` and the displacement is
`-(normalize(toMouse) * force * influence * dt)`.  The source calls the WGSL
`normalize` unconditionally; on a zero-length vector that builtin divides zero
by zero and produces an indeterminate value (NaN), modelled here as `none`. -/
def applyMouseForce (position mouse : Vec3) (mouseActive mouseForce mouseRadius dt : ℝ) :
    Option Vec3 :=
  let toMouse := mouse - position
  let distToMouse := Vec3.length toMouse
  let mouseInfluence := mouseActive * max (1 - distToMouse / mouseRadius) 0
  if distToMouse = 0 then none
  else
    let mouseDir := (1 / distToMouse) • toMouse
    some (-(dt • (mouseInfluence • (mouseForce • mouseDir))))

/-- `applySpringForce` from `helpers.js` (inlined in `galaxy.js`):
`(target - current) * strength * dt`. -/
def applySpringForce (currentPos targetPos : Vec3) (strength dt : ℝ) : Vec3 :=
  dt • (strength • (targetPos - currentPos))

/-- One step of `computeUpdate` (stars, `springK = 2.0`) / `cloudUpdate`
(clouds, `springK = 1.0`) for a single particle: differential rotation of the
position and, independently, of the anchor (the anchor buffer is written right
after its rotation), then the mouse force and the spring force toward the
rotated anchor are added to the position only.  The first component is the new
position (`none` when the indeterminate `normalize(0)` value poisoned it), the
second the new anchor. -/
def computeUpdate (springK : ℝ) (fs : ForceState) (rotationSpeed dt : ℝ)
    (position anchor : Vec3) : Option Vec3 × Vec3 :=
  let p1 := applyDifferentialRotation position rotationSpeed dt
  let a1 := applyDifferentialRotation anchor rotationSpeed dt
  let mf := applyMouseForce p1 fs.mouse fs.active fs.force fs.radius dt
  (mf.map (fun f => let p2 := p1 + f; p2 + applySpringForce p2 a1 springK dt), a1)

theorem planar_of_polar (θ r yv : ℝ) (hr : 0 ≤ r) :
    planarLength ⟨Real.cos θ * r, yv, Real.sin θ * r⟩ = r := by
  rw [planarLength_eq]
  have h2 : (Real.cos θ * r) ^ 2 + (Real.sin θ * r) ^ 2 = r ^ 2 := by
    have h := Real.sin_sq_add_cos_sq θ
    nlinarith [h]
  rw [h2, Real.sqrt_sq hr]

/-- C2: with `randomness = 0` and `armWidth = 0` the jitter vanishes, so the
planar distance from center of a generated star is exactly
`hash(seed+1)^0.5 * galaxyRadius` and of a generated cloud exactly
`hash(seed+1)^0.7 * galaxyRadius` (cloud seeds offset by 10000); and with
`galaxyThickness = 0` every generated particle has `y = 0`.  Stated on the
documented parameter domain `galaxyRadius ≥ 0`. -/
theorem init_boundary_containment (P : GenParams) (i j : ℕ)
    (hrand : P.randomness = 0) (harm : P.armWidth = 0) (hR : 0 ≤ P.galaxyRadius) :
    planarLength (starInitPos P i) = hash ((i : ℝ) + 1) ^ (0.5 : ℝ) * P.galaxyRadius
      ∧ planarLength (cloudInitPos P j)
        = hash ((j : ℝ) + 10000 + 1) ^ (0.7 : ℝ) * P.galaxyRadius
      ∧ (P.galaxyThickness = 0 → (starInitPos P i).y = 0 ∧ (cloudInitPos P j).y = 0) := by
  refine ⟨?_, ?_, fun hT => ⟨?_, ?_⟩⟩
  · have hr : 0 ≤ hash ((i : ℝ) + 1) ^ (0.5 : ℝ) * P.galaxyRadius :=
      mul_nonneg (Real.rpow_nonneg (hash_nonneg _) _) hR
    simp only [starInitPos, hrand, harm, mul_zero, add_zero]
    exact planar_of_polar _ _ _ hr
  · have hr : 0 ≤ hash ((j : ℝ) + 10000 + 1) ^ (0.7 : ℝ) * P.galaxyRadius :=
      mul_nonneg (Real.rpow_nonneg (hash_nonneg _) _) hR
    simp only [cloudInitPos, hrand, harm, mul_zero, add_zero]
    exact planar_of_polar _ _ _ hr
  · simp [starInitPos, hT]
  · simp [cloudInitPos, hT]

/-- Concrete generation parameters used by witnesses: radius 10, thickness 0,
tightness 1.75, two arms, no arm width, no randomness. -/
def Params0 : GenParams := ⟨10, 0, 1.75, 2, 0, 0⟩

/-- Witness for the boundary-containment theorem at particle 0 of each
population with `Params0`. -/
theorem init_boundary_containment_witness :
    Params0.randomness = 0 ∧ Params0.armWidth = 0 ∧ 0 ≤ Params0.galaxyRadius
      ∧ (planarLength (starInitPos Params0 0)
            = hash ((0 : ℕ) + 1 : ℝ) ^ (0.5 : ℝ) * Params0.galaxyRadius
          ∧ planarLength (cloudInitPos Params0 0)
            = hash (((0 : ℕ) : ℝ) + 10000 + 1) ^ (0.7 : ℝ) * Params0.galaxyRadius
          ∧ (Params0.galaxyThickness = 0
              → (starInitPos Params0 0).y = 0 ∧ (cloudInitPos Params0 0).y = 0)) :=
  ⟨rfl, rfl, by show (0 : ℝ) ≤ 10; norm_num,
    init_boundary_containment Params0 0 0 rfl rfl (by show (0 : ℝ) ≤ 10; norm_num)⟩

theorem rotateXZ_planarLength (p : Vec3) (θ : ℝ) :
    planarLength (rotateXZ p θ) = planarLength p := by
  simp only [rotateXZ, planarLength_eq]
  congr 1
  linear_combination (p.x ^ 2 + p.z ^ 2) * Real.sin_sq_add_cos_sq θ

theorem applyDifferentialRotation_planarLength (p : Vec3) (rs dt : ℝ) :
    planarLength (applyDifferentialRotation p rs dt) = planarLength p := by
  unfold applyDifferentialRotation
  exact rotateXZ_planarLength p _

theorem computeUpdate_snd (k : ℝ) (fs : ForceState) (rs dt : ℝ) (p a : Vec3) :
    (computeUpdate k fs rs dt p a).2 = applyDifferentialRotation a rs dt := rfl

/-- C3: the rotation sub-step of the update recurrence preserves the planar
distance from center: `rotateXZ` by any angle, the differential-rotation step
on any point, and the anchor written by a full `computeUpdate` step all keep
`length(x, z)` exactly (in real arithmetic). -/
theorem rotation_preserves_radius (p : Vec3) (θ rs dt k : ℝ) (fs : ForceState)
    (pos anchor : Vec3) :
    planarLength (rotateXZ p θ) = planarLength p
      ∧ planarLength (applyDifferentialRotation p rs dt) = planarLength p
      ∧ planarLength ((computeUpdate k fs rs dt pos anchor).2) = planarLength anchor := by
  refine ⟨rotateXZ_planarLength p θ, applyDifferentialRotation_planarLength p rs dt, ?_⟩
  rw [computeUpdate_snd]
  exact applyDifferentialRotation_planarLength anchor rs dt

theorem applyMouseForce_eq_zero (p m : Vec3) (active force radius dt : ℝ)
    (hne : m - p ≠ 0) (hrad : 0 < radius)
    (hcond : radius ≤ Vec3.length (m - p) ∨ active = 0) :
    applyMouseForce p m active force radius dt = some 0 := by
  simp only [applyMouseForce]
  rw [if_neg (fun h => hne (Vec3.length_eq_zero.mp h))]
  have hinf : active * max (1 - Vec3.length (m - p) / radius) 0 = 0 := by
    rcases hcond with h | h
    · have hle : (1 - Vec3.length (m - p) / radius) ≤ 0 := by
        rw [sub_nonpos]
        rw [le_div_iff₀ hrad, one_mul]
        exact h
      rw [max_eq_right hle, mul_zero]
    · rw [h, zero_mul]
  rw [hinf, Vec3.zero_smul_vec, Vec3.smul_zero_vec, Vec3.neg_zero_vec]

theorem length_pos_of_sub_ne {v : Vec3} (h : v ≠ 0) : 0 < Vec3.length v :=
  lt_of_le_of_ne (Vec3.length_nonneg _) (fun he => h (Vec3.length_eq_zero.mp he.symm))

/-- C5 (amended): for a positive force radius and a particle not exactly at the
force origin, `applyMouseForce` returns the zero displacement when the distance
is at least the force radius or the force is inactive, and otherwise (active,
distance below the radius, positive strength and time step) a non-zero
displacement that is a positive multiple of `position - forceOrigin`, i.e.
directed away from the force origin. -/
theorem mouse_force_falloff (p m : Vec3) (active force radius dt : ℝ)
    (hrad : 0 < radius) (hne : m - p ≠ 0) :
    ((radius ≤ Vec3.length (m - p) ∨ active = 0)
        → applyMouseForce p m active force radius dt = some 0)
      ∧ (Vec3.length (m - p) < radius → active = 1 → 0 < force → 0 < dt →
          ∃ c : ℝ, 0 < c
            ∧ applyMouseForce p m active force radius dt = some (c • (p - m))
            ∧ c • (p - m) ≠ 0) := by
  constructor
  · exact applyMouseForce_eq_zero p m active force radius dt hne hrad
  · intro hdr hact hf hdt
    have hdpos : 0 < Vec3.length (m - p) := length_pos_of_sub_ne hne
    have hd0 : Vec3.length (m - p) ≠ 0 := ne_of_gt hdpos
    have hinf : 0 < 1 - Vec3.length (m - p) / radius := by
      have : Vec3.length (m - p) / radius < 1 := (div_lt_one hrad).mpr hdr
      linarith
    refine ⟨force * (1 - Vec3.length (m - p) / radius) * dt / Vec3.length (m - p),
      by positivity, ?_, ?_⟩
    · simp only [applyMouseForce, hact]
      rw [if_neg hd0]
      congr 1
      rw [max_eq_left (le_of_lt hinf), one_mul]
      ext
      · simp only [Vec3.neg_x, Vec3.smul_x, Vec3.sub_x]
        field_simp
        ring
      · simp only [Vec3.neg_y, Vec3.smul_y, Vec3.sub_y]
        field_simp
        ring
      · simp only [Vec3.neg_z, Vec3.smul_z, Vec3.sub_z]
        field_simp
        ring
    · intro h0
      rcases Vec3.smul_eq_zero_iff.mp h0 with hc | hv
      · have : (0 : ℝ) < force * (1 - Vec3.length (m - p) / radius) * dt
            / Vec3.length (m - p) := by positivity
        exact absurd hc (ne_of_gt this)
      · exact hne (by rw [show m - p = -(p - m) by ext <;> simp, hv, Vec3.neg_zero_vec])

/-- C5 counterexample: with the particle exactly at the force origin and the
force inactive, the claim demands a zero displacement, but the code feeds the
zero vector to `normalize` and the displacement is the indeterminate value
(`none`), not zero. -/
theorem mouse_force_falloff_cex :
    applyMouseForce ⟨0, 0, 0⟩ ⟨0, 0, 0⟩ 0 7 10 (1 / 60) = none
      ∧ applyMouseForce ⟨0, 0, 0⟩ ⟨0, 0, 0⟩ 0 7 10 (1 / 60) ≠ some 0 := by
  have h : applyMouseForce ⟨0, 0, 0⟩ ⟨0, 0, 0⟩ 0 7 10 (1 / 60) = none := by
    have hz : ((⟨0, 0, 0⟩ : Vec3) - ⟨0, 0, 0⟩) = 0 := by ext <;> simp
    simp only [applyMouseForce, hz]
    rw [if_pos (Vec3.length_eq_zero.mpr rfl)]
  refine ⟨h, by rw [h]; simp⟩

/-- C6: the code calls the WGSL `normalize` on `forceOrigin - position` without
any zero-length guard; for a particle exactly at the active force origin the
displacement is the indeterminate 0/0 value (`none`), which is then added to
the particle's position — a propagated fault, not the defined zero result the
specification requires. -/
theorem mouse_force_zero_vector_bug :
    applyMouseForce ⟨0, 0, 0⟩ ⟨0, 0, 0⟩ 1 7 10 (1 / 60) = none := by
  have hz : ((⟨0, 0, 0⟩ : Vec3) - ⟨0, 0, 0⟩) = 0 := by ext <;> simp
  simp only [applyMouseForce, hz]
  rw [if_pos (Vec3.length_eq_zero.mpr rfl)]

theorem rotateXZ_zero (p : Vec3) : rotateXZ p 0 = p := by
  simp only [rotateXZ, Real.cos_zero, Real.sin_zero]
  ext <;> simp

theorem applyDifferentialRotation_zero (p : Vec3) (dt : ℝ) :
    applyDifferentialRotation p 0 dt = p := by
  simp only [applyDifferentialRotation, zero_mul, neg_zero]
  exact rotateXZ_zero p

/-- C4 (amended): with the external force inactive, `rotationSpeed = 0`,
`0 < springConstant * deltaTime < 1`, the particle away from its anchor and
not exactly at the force origin, one `computeUpdate` step produces a defined
new position whose distance to the (unchanged) anchor is strictly smaller than
before; repeated application therefore approaches the anchor monotonically.
Stars use `springK = 2.0` and clouds `springK = 1.0`, both covered by the
generic `springK`. -/
theorem spring_convergence (k : ℝ) (fs : ForceState) (dt : ℝ) (p a : Vec3)
    (hpa : p ≠ a) (hact : fs.active = 0) (hmouse : p ≠ fs.mouse)
    (h1 : 0 < k * dt) (h2 : k * dt < 1) :
    ∃ q : Vec3, (computeUpdate k fs 0 dt p a).1 = some q
      ∧ Vec3.length (q - (computeUpdate k fs 0 dt p a).2) < Vec3.length (p - a) := by
  have hp1 : applyDifferentialRotation p 0 dt = p := applyDifferentialRotation_zero p dt
  have ha1 : applyDifferentialRotation a 0 dt = a := applyDifferentialRotation_zero a dt
  have hsub : fs.mouse - p ≠ 0 := fun h => hmouse (Vec3.sub_eq_zero_iff.mp h).symm
  have hd0 : Vec3.length (fs.mouse - p) ≠ 0 := ne_of_gt (length_pos_of_sub_ne hsub)
  have hmf : applyMouseForce p fs.mouse fs.active fs.force fs.radius dt = some 0 := by
    simp only [applyMouseForce, hact, zero_mul]
    rw [if_neg hd0, Vec3.zero_smul_vec, Vec3.smul_zero_vec, Vec3.neg_zero_vec]
  refine ⟨p + applySpringForce p a k dt, ?_, ?_⟩
  · simp only [computeUpdate, hp1, ha1, hmf, Option.map_some', Vec3.add_zero_vec]
  · rw [computeUpdate_snd, ha1]
    have key : (p + applySpringForce p a k dt) - a = (1 - k * dt) • (p - a) := by
      unfold applySpringForce
      ext <;> simp <;> ring
    rw [key, Vec3.length_smul]
    have hL : 0 < Vec3.length (p - a) :=
      length_pos_of_sub_ne (fun h => hpa (Vec3.sub_eq_zero_iff.mp h))
    have habs : |1 - k * dt| = 1 - k * dt := abs_of_pos (by linarith)
    rw [habs]
    nlinarith

/-- Inactive force state whose origin sits at the galactic center, used by the
spring-convergence counterexample. -/
def FS0 : ForceState := ⟨⟨0, 0, 0⟩, 0, 7, 10⟩

/-- C4 counterexample: a particle exactly at the (inactive) force origin and
away from its anchor satisfies every hypothesis of the claim, yet the update
step feeds the zero vector to `normalize` and yields no defined new position
(`none`, the indeterminate value), so the distance to the anchor cannot
strictly decrease as the claim states. -/
theorem spring_convergence_cex :
    ((⟨0, 0, 0⟩ : Vec3) ≠ ⟨1, 0, 0⟩) ∧ FS0.active = 0
      ∧ (0 : ℝ) < 2 * (1 / 100) ∧ (2 * (1 / 100) : ℝ) < 1
      ∧ (computeUpdate 2 FS0 0 (1 / 100) ⟨0, 0, 0⟩ ⟨1, 0, 0⟩).1 = none
      ∧ ¬ ∃ q : Vec3, (computeUpdate 2 FS0 0 (1 / 100) ⟨0, 0, 0⟩ ⟨1, 0, 0⟩).1 = some q
          ∧ Vec3.length (q - (computeUpdate 2 FS0 0 (1 / 100) ⟨0, 0, 0⟩ ⟨1, 0, 0⟩).2)
            < Vec3.length ((⟨0, 0, 0⟩ : Vec3) - ⟨1, 0, 0⟩) := by
  have h1 : applyDifferentialRotation ⟨0, 0, 0⟩ 0 (1 / 100) = (⟨0, 0, 0⟩ : Vec3) :=
    applyDifferentialRotation_zero _ _
  have hz : (FS0.mouse - ⟨0, 0, 0⟩) = (0 : Vec3) := by ext <;> simp [FS0]
  have hnone : (computeUpdate 2 FS0 0 (1 / 100) ⟨0, 0, 0⟩ ⟨1, 0, 0⟩).1 = none := by
    simp only [computeUpdate, h1]
    have : applyMouseForce ⟨0, 0, 0⟩ FS0.mouse FS0.active FS0.force FS0.radius (1 / 100)
        = none := by
      simp only [applyMouseForce, hz]
      rw [if_pos (Vec3.length_eq_zero.mpr rfl)]
    rw [this]
    rfl
  refine ⟨?_, rfl, by norm_num, by norm_num, hnone, ?_⟩
  · intro h
    have hx := congrArg Vec3.x h
    norm_num at hx
  · rintro ⟨q, hq, _⟩
    rw [hnone] at hq
    exact Option.noConfusion hq

/-- Inactive force state away from the origin, used by witnesses. -/
def FS1 : ForceState := ⟨⟨5, 0, 0⟩, 0, 7, 10⟩

/-- Witness for the amended spring-convergence theorem: star spring constant
`k = 2`, `dt = 1/4`, particle at the origin, anchor one unit away, inactive
force centered at `(5, 0, 0)`. -/
theorem spring_convergence_witness :
    ((⟨0, 0, 0⟩ : Vec3) ≠ ⟨1, 0, 0⟩) ∧ FS1.active = 0
      ∧ ((⟨0, 0, 0⟩ : Vec3) ≠ FS1.mouse)
      ∧ (0 : ℝ) < 2 * (1 / 4) ∧ (2 * (1 / 4) : ℝ) < 1
      ∧ ∃ q : Vec3, (computeUpdate 2 FS1 0 (1 / 4) ⟨0, 0, 0⟩ ⟨1, 0, 0⟩).1 = some q
          ∧ Vec3.length (q - (computeUpdate 2 FS1 0 (1 / 4) ⟨0, 0, 0⟩ ⟨1, 0, 0⟩).2)
            < Vec3.length ((⟨0, 0, 0⟩ : Vec3) - ⟨1, 0, 0⟩) := by
  have hne1 : (⟨0, 0, 0⟩ : Vec3) ≠ ⟨1, 0, 0⟩ := by
    intro h
    have hx := congrArg Vec3.x h
    norm_num at hx
  have hne2 : (⟨0, 0, 0⟩ : Vec3) ≠ FS1.mouse := by
    intro h
    have hx := congrArg Vec3.x h
    norm_num [FS1] at hx
  exact ⟨hne1, rfl, hne2, by norm_num, by norm_num,
    spring_convergence 2 FS1 (1 / 4) ⟨0, 0, 0⟩ ⟨1, 0, 0⟩ hne1 rfl hne2
      (by norm_num) (by norm_num)⟩

/-- Witness for the amended mouse-force falloff theorem: particle at the
origin, force origin three units away, radius 10. -/
theorem mouse_force_falloff_witness :
    (0 : ℝ) < 10 ∧ ((⟨3, 0, 0⟩ : Vec3) - ⟨0, 0, 0⟩) ≠ 0
      ∧ (((10 : ℝ) ≤ Vec3.length ((⟨3, 0, 0⟩ : Vec3) - ⟨0, 0, 0⟩) ∨ (1 : ℝ) = 0)
            → applyMouseForce ⟨0, 0, 0⟩ ⟨3, 0, 0⟩ 1 7 10 (1 / 60) = some 0)
        ∧ (Vec3.length ((⟨3, 0, 0⟩ : Vec3) - ⟨0, 0, 0⟩) < 10 → (1 : ℝ) = 1
            → (0 : ℝ) < 7 → (0 : ℝ) < 1 / 60 →
            ∃ c : ℝ, 0 < c
              ∧ applyMouseForce ⟨0, 0, 0⟩ ⟨3, 0, 0⟩ 1 7 10 (1 / 60)
                = some (c • ((⟨0, 0, 0⟩ : Vec3) - ⟨3, 0, 0⟩))
              ∧ c • ((⟨0, 0, 0⟩ : Vec3) - ⟨3, 0, 0⟩) ≠ 0) := by
  have hne : ((⟨3, 0, 0⟩ : Vec3) - ⟨0, 0, 0⟩) ≠ 0 := by
    intro h
    have hx := congrArg Vec3.x h
    norm_num at hx
  exact ⟨by norm_num, hne,
    mouse_force_falloff ⟨0, 0, 0⟩ ⟨3, 0, 0⟩ 1 7 10 (1 / 60) (by norm_num) hne⟩

/-- Hash seeds drawn by the star init shader: `seed = particleIndex` and a
small salt (1..5) is added before each `hash` call. -/
def starSeed (i s : ℕ) : ℕ := i + s

/-- Hash seeds drawn by the cloud init shader: `seed = particleIndex + 10000`
and a small salt (1..7) is added before each `hash` call. -/
def cloudSeed (j t : ℕ) : ℕ := j + 10000 + t

/-- C7 counterexample: with the shipped default `starCount = 750000` and
`cloudCount = 5000`, star index 10000 with salt 1 hashes exactly the same seed
as cloud index 0 with salt 1 — the 10000 offset does not separate the two
populations once the star population exceeds 9996. -/
theorem seed_disjointness_cex :
    10000 < 750000 ∧ 0 < 5000 ∧ 1 ≤ 5 ∧ 1 ≤ 7
      ∧ starSeed 10000 1 = cloudSeed 0 1 :=
  ⟨by norm_num, by norm_num, by norm_num, by norm_num, rfl⟩

/-- C7 (amended): star seeds `i + s` (`i < starCount`, `s ∈ 1..5`) and cloud
seeds `j + 10000 + t` (`t ∈ 1..7`) are disjoint provided
`starCount + 4 ≤ 10000`, i.e. `starCount ≤ 9996`; for larger star populations
(the shipped default is 750000) the two seed ranges overlap. -/
theorem seed_disjointness (starCount i s j t : ℕ) (hi : i < starCount)
    (hcap : starCount + 4 ≤ 10000) (hs1 : 1 ≤ s) (hs5 : s ≤ 5)
    (ht1 : 1 ≤ t) (ht7 : t ≤ 7) :
    starSeed i s ≠ cloudSeed j t := by
  unfold starSeed cloudSeed
  omega

/-- Witness for the amended seed-disjointness theorem: `starCount = 9996`,
star index 0 with salt 1 against cloud index 0 with salt 1. -/
theorem seed_disjointness_witness :
    0 < 9996 ∧ 9996 + 4 ≤ 10000 ∧ 1 ≤ 5 ∧ 1 ≤ 7
      ∧ starSeed 0 1 ≠ cloudSeed 0 1 :=
  ⟨by norm_num, by norm_num, by norm_num, by norm_num,
    seed_disjointness 9996 0 1 0 1 (by norm_num) (by norm_num) (le_refl 1)
      (by norm_num) (le_refl 1) (by norm_num)⟩

/-- An RGB color uniform (the hex-string parsing done by the `three` library
`Color.set` is external to this repository). -/
structure GalaxyColor where
  r : ℝ
  g : ℝ
  b : ℝ

/-- Every mutable uniform written by `updateUniforms`, plus the stored
`config.cloudCount`. -/
structure UniformState where
  galaxyRadius : ℝ
  galaxyThickness : ℝ
  spiralTightness : ℝ
  armCount : ℝ
  armWidth : ℝ
  randomness : ℝ
  rotationSpeed : ℝ
  mouseForce : ℝ
  mouseRadius : ℝ
  particleSize : ℝ
  cloudSize : ℝ
  cloudOpacity : ℝ
  starBrightness : ℝ
  denseStarColor : GalaxyColor
  sparseStarColor : GalaxyColor
  cloudTintColor : GalaxyColor
  cloudCount : ℤ

/-- A `configUpdate` argument of `updateUniforms`: a `none` field models a
JavaScript `undefined` field. -/
structure ConfigUpdate where
  galaxyRadius : Option ℝ := none
  galaxyThickness : Option ℝ := none
  spiralTightness : Option ℝ := none
  armCount : Option ℝ := none
  armWidth : Option ℝ := none
  randomness : Option ℝ := none
  rotationSpeed : Option ℝ := none
  mouseForce : Option ℝ := none
  mouseRadius : Option ℝ := none
  particleSize : Option ℝ := none
  cloudSize : Option ℝ := none
  cloudOpacity : Option ℝ := none
  starBrightness : Option ℝ := none
  denseStarColor : Option GalaxyColor := none
  sparseStarColor : Option GalaxyColor := none
  cloudTintColor : Option GalaxyColor := none
  cloudCount : Option ℤ := none

/-- `updateUniforms` from `galaxy.js`: each field of the update that is
defined (`!== undefined`) is assigned to the corresponding uniform
unconditionally; undefined fields keep the previous value.  The source
performs no validation of any kind. -/
def updateUniforms (st : UniformState) (u : ConfigUpdate) : UniformState where
  galaxyRadius := u.galaxyRadius.getD st.galaxyRadius
  galaxyThickness := u.galaxyThickness.getD st.galaxyThickness
  spiralTightness := u.spiralTightness.getD st.spiralTightness
  armCount := u.armCount.getD st.armCount
  armWidth := u.armWidth.getD st.armWidth
  randomness := u.randomness.getD st.randomness
  rotationSpeed := u.rotationSpeed.getD st.rotationSpeed
  mouseForce := u.mouseForce.getD st.mouseForce
  mouseRadius := u.mouseRadius.getD st.mouseRadius
  particleSize := u.particleSize.getD st.particleSize
  cloudSize := u.cloudSize.getD st.cloudSize
  cloudOpacity := u.cloudOpacity.getD st.cloudOpacity
  starBrightness := u.starBrightness.getD st.starBrightness
  denseStarColor := u.denseStarColor.getD st.denseStarColor
  sparseStarColor := u.sparseStarColor.getD st.sparseStarColor
  cloudTintColor := u.cloudTintColor.getD st.cloudTintColor
  cloudCount := u.cloudCount.getD st.cloudCount

/-- The star-count state touched by `updateStarCount`: `this.COUNT`, the
stored `config.starCount`, and the `initialized` flag (`createGalaxySystem`
reallocates the buffers, which carry no further state to model here).
JavaScript numbers admit negative counts, hence `ℤ`. -/
structure StarCountState where
  COUNT : ℤ
  starCount : ℤ
  initialized : Bool

/-- `updateStarCount` from `galaxy.js`: store the new count and lower the
initialization flag — again with no validation. -/
def updateStarCount (s : StarCountState) (newCount : ℤ) : StarCountState :=
  { COUNT := newCount, starCount := newCount, initialized := false }

/-- The shipped default configuration of `main.js` (hex colors converted to
RGB in `[0,1]` as the `three` `Color` class stores them). -/
def defaultUniforms : UniformState where
  galaxyRadius := 13
  galaxyThickness := 3
  spiralTightness := 1.75
  armCount := 2
  armWidth := 2.25
  randomness := 1.8
  rotationSpeed := 0.1
  mouseForce := 7
  mouseRadius := 10
  particleSize := 0.06
  cloudSize := 3
  cloudOpacity := 0.02
  starBrightness := 0.3
  denseStarColor := ⟨24 / 255, 133 / 255, 1⟩
  sparseStarColor := ⟨1, 178 / 255, 138 / 255⟩
  cloudTintColor := ⟨1, 218 / 255, 206 / 255⟩
  cloudCount := 5000

/-- C8 counterexample: setting `armCount = 0` on the default configuration is
not rejected — the invalid value is stored and the previous configuration is
not kept. -/
theorem update_params_no_validation_cex :
    (updateUniforms defaultUniforms { armCount := some 0 }).armCount = 0
      ∧ defaultUniforms.armCount = 2
      ∧ updateUniforms defaultUniforms { armCount := some 0 } ≠ defaultUniforms := by
  refine ⟨rfl, rfl, ?_⟩
  intro h
  have h2 := congrArg UniformState.armCount h
  rw [show (updateUniforms defaultUniforms { armCount := some 0 }).armCount = 0 from rfl,
    show defaultUniforms.armCount = 2 from rfl] at h2
  norm_num at h2

/-- C8 (amended): the parameter-setting operations perform no validation.
`updateUniforms` stores any provided value — `armCount = 0`, a negative
radius, a negative count — unconditionally and keeps only the omitted fields;
`updateStarCount` accepts any new count, including a negative one, and merely
lowers the initialization flag.  Nothing rejects a malformed value before it
reaches generation; range enforcement lives solely in the UI slider bounds. -/
theorem update_params_no_validation (st : UniformState) (u : ConfigUpdate)
    (s : StarCountState) (n : ℤ) :
    (updateUniforms st u).armCount = u.armCount.getD st.armCount
      ∧ (updateUniforms st u).galaxyRadius = u.galaxyRadius.getD st.galaxyRadius
      ∧ (updateUniforms st u).randomness = u.randomness.getD st.randomness
      ∧ (updateStarCount s n).COUNT = n
      ∧ (updateStarCount s n).starCount = n
      ∧ (updateStarCount s n).initialized = false :=
  ⟨rfl, rfl, rfl, rfl, rfl, rfl⟩

/-- The mutable state of the star population pipeline: structure uniforms,
position and anchor buffers (a `none` position is one poisoned by the
indeterminate `normalize(0)` value), and the lazy-initialization flag.  The
cloud pipeline is identical up to the init function, the seed offset and the
spring constant. -/
structure GalaxyState where
  params : GenParams
  pos : ℕ → Option Vec3
  anchor : ℕ → Vec3
  initialized : Bool

/-- The one-time placement pass (`computeInit` dispatched over all particles):
write position and anchor of every particle from the current uniforms, then
raise the flag. -/
def runInit (g : GalaxyState) : GalaxyState :=
  { g with
    pos := fun i => some (starInitPos g.params i)
    anchor := fun i => starInitPos g.params i
    initialized := true }

/-- One particle of the per-frame pass: a defined position goes through
`computeUpdate` (star spring constant 2.0); a poisoned position stays
poisoned, while the anchor — whose write never reads the position — is still
rotated. -/
def stepParticle (fs : ForceState) (rs dt : ℝ) :
    Option Vec3 × Vec3 → Option Vec3 × Vec3
  | (none, a) => (none, applyDifferentialRotation a rs dt)
  | (some p, a) => computeUpdate 2 fs rs dt p a

/-- The per-frame pass (`computeUpdate` dispatched over all particles). -/
def runUpdate (fs : ForceState) (rs dt : ℝ) (g : GalaxyState) : GalaxyState :=
  { g with
    pos := fun i => (stepParticle fs rs dt (g.pos i, g.anchor i)).1
    anchor := fun i => (stepParticle fs rs dt (g.pos i, g.anchor i)).2 }

/-- The `update` method of `GalaxySimulation`: lazily run the one-time init
pass when the flag is down, then always run one update pass. -/
def update (fs : ForceState) (rs dt : ℝ) (g : GalaxyState) : GalaxyState :=
  if g.initialized then runUpdate fs rs dt g
  else runUpdate fs rs dt (runInit g)

/-- `regenerate` from `galaxy.js`: lower the initialization flag so the next
`update` call regenerates. -/
def regenerate (g : GalaxyState) : GalaxyState := { g with initialized := false }

/-- The structural-parameter path wired in `main.js` (`onRegenerate`): write
the new structure uniforms via `updateUniforms`, then call `regenerate`. -/
def setStructuralParams (g : GalaxyState) (P : GenParams) : GalaxyState :=
  regenerate { g with params := P }

/-- C9: a structural parameter change (e.g. a new arm count) on an initialized
population lowers the flag to Uninitialized, and the next `update` call first
regenerates every particle from the new parameters and only then applies the
per-frame recurrence: each resulting buffer entry is exactly one
`computeUpdate` step applied to the freshly generated placement. -/
theorem structural_change_regenerates (g : GalaxyState) (Pnew : GenParams)
    (fs : ForceState) (rs dt : ℝ) (h : g.initialized = true) :
    (setStructuralParams g Pnew).initialized = false
      ∧ (update fs rs dt (setStructuralParams g Pnew)).initialized = true
      ∧ ∀ i : ℕ,
        (update fs rs dt (setStructuralParams g Pnew)).pos i
            = (computeUpdate 2 fs rs dt (starInitPos Pnew i) (starInitPos Pnew i)).1
          ∧ (update fs rs dt (setStructuralParams g Pnew)).anchor i
            = (computeUpdate 2 fs rs dt (starInitPos Pnew i) (starInitPos Pnew i)).2 :=
  ⟨rfl, rfl, fun _ => ⟨rfl, rfl⟩⟩

/-- An initialized population state used by the regeneration witness. -/
def G0 : GalaxyState := ⟨Params0, fun _ => some ⟨0, 0, 0⟩, fun _ => ⟨0, 0, 0⟩, true⟩

/-- New structure parameters (arm count 3) used by the regeneration witness. -/
def Params1 : GenParams := ⟨13, 3, 1.75, 3, 2.25, 1.8⟩

/-- Witness for the regeneration theorem at the concrete initialized state
`G0`, new parameters `Params1` and an inactive force. -/
theorem structural_change_regenerates_witness :
    G0.initialized = true
      ∧ ((setStructuralParams G0 Params1).initialized = false
          ∧ (update FS1 0.1 (1 / 60) (setStructuralParams G0 Params1)).initialized = true
          ∧ ∀ i : ℕ,
            (update FS1 0.1 (1 / 60) (setStructuralParams G0 Params1)).pos i
                = (computeUpdate 2 FS1 0.1 (1 / 60) (starInitPos Params1 i)
                    (starInitPos Params1 i)).1
              ∧ (update FS1 0.1 (1 / 60) (setStructuralParams G0 Params1)).anchor i
                = (computeUpdate 2 FS1 0.1 (1 / 60) (starInitPos Params1 i)
                    (starInitPos Params1 i)).2) :=
  ⟨rfl, structural_change_regenerates G0 Params1 FS1 0.1 (1 / 60) rfl⟩

/-- C10: the anchor written by one update step is exactly the differential
rotation of the previous anchor; its `y` component is the previous anchor's
`y` unchanged; and it does not depend on the spring constant, the force state
or the particle's position — the mouse and spring displacements are applied to
the position only. -/
theorem anchor_rotation_only (k k2 rs dt : ℝ) (fs fs2 : ForceState) (p p2 a : Vec3) :
    (computeUpdate k fs rs dt p a).2 = applyDifferentialRotation a rs dt
      ∧ ((computeUpdate k fs rs dt p a).2).y = a.y
      ∧ (computeUpdate k fs rs dt p a).2 = (computeUpdate k2 fs2 rs dt p2 a).2 := by
  refine ⟨rfl, ?_, rfl⟩
  rw [computeUpdate_snd]
  simp only [applyDifferentialRotation, rotateXZ, Vec3.mk_y]

end Galaxy
